import Mathlib

/-!
# Verification of the video_compositor specification against its source

This file shallowly embeds the parts of the `video_compositor` repository
that the specification's claims are about:

* the WGSL shader validation in
  `compositor_render/src/transformations/shader/validation.rs`
  (together with the fragment of the `naga` data model it reads),
* the shader-parameter binding lookup in `compositor_render/src/wgpu/shader.rs`,
* the pipeline registration lifecycle and render loop in
  `compositor_pipeline/src/pipeline.rs`,
* the error-chain rendering in `compositor_common/src/error.rs`.

Machine integers (`u32`, `u8`, `usize`) are modelled as `Nat`, `i64` as `Int`;
overflow-sensitive casts carry an explicit `% 2 ^ 64`.  Rust `Result` becomes
`Except`, and the one `panic!` branch of `validate_type_equivalent` is
modelled by an `Option` layer (with `none` for the panicking execution).
-/

/-! ## The naga data model (the fragment read by `validation.rs`)

`naga`'s arena handles are indices into the module's type/constant lists.
Fields of the Rust structs that the validation code never reads (function
bodies, early depth test, workgroup size, …) are omitted.
-/

deriving instance DecidableEq for Except

/-- Embeds `naga::Handle<T>`: an index into an arena (`UniqueArena` / `Arena`). -/
abbrev Handle := Nat

/-- Embeds `naga::ScalarKind`. -/
inductive ScalarKind where
  | Sint
  | Uint
  | Float
  | Bool
deriving DecidableEq, Repr, Inhabited

/-- Embeds `naga::VectorSize`. -/
inductive VectorSize where
  | Bi
  | Tri
  | Quad
deriving DecidableEq, Repr, Inhabited

/-- Embeds `naga::AddressSpace`; the `Storage` access bitflags are kept as a `Nat`. -/
inductive AddressSpace where
  | Function
  | Private
  | WorkGroup
  | Uniform
  | Storage (access : Nat)
  | Handle
  | PushConstant
deriving DecidableEq, Repr, Inhabited

/-- Embeds `naga::ResourceBinding`: the `@group(..) @binding(..)` pair. -/
structure ResourceBinding where
  group : Nat
  binding : Nat
deriving DecidableEq, Repr, Inhabited

/-- Embeds `naga::Interpolation`. -/
inductive Interpolation where
  | Perspective
  | Linear
  | Flat
deriving DecidableEq, Repr, Inhabited

/-- Embeds `naga::Sampling`. -/
inductive Sampling where
  | Center
  | Centroid
  | Sample
deriving DecidableEq, Repr, Inhabited

/-- Embeds `naga::BuiltIn`, kept as an index of the enum variant: the validation
code only ever compares bindings for equality. -/
abbrev BuiltInVariant := Nat

/-- Embeds `naga::Binding` on struct members / function arguments. -/
inductive ShaderBinding where
  | BuiltIn (b : BuiltInVariant)
  | Location (location : Nat) (interpolation : Option Interpolation)
      (sampling : Option Sampling)
deriving DecidableEq, Repr, Inhabited

/-- Embeds `naga::ImageDimension`. -/
inductive ImageDimension where
  | D1
  | D2
  | D3
  | Cube
deriving DecidableEq, Repr, Inhabited

/-- Embeds `naga::StorageFormat`, kept as the index of the enum variant: only
compared for equality. -/
abbrev StorageFormat := Nat

/-- Embeds `naga::ImageClass` (renamed: `class` is a Lean keyword); the storage
access bitflags are kept as a `Nat`. -/
inductive ImageVariant where
  | Sampled (kind : ScalarKind) (multi : Bool)
  | Depth (multi : Bool)
  | Storage (format : StorageFormat) (access : Nat)
deriving DecidableEq, Repr, Inhabited

/-- Embeds `naga::ArraySize`. -/
inductive ArraySize where
  | Constant (h : Handle)
  | Dynamic
deriving DecidableEq, Repr, Inhabited

/-- Embeds `naga::StructMember`. -/
structure StructMember where
  name : Option String
  ty : Handle
  binding : Option ShaderBinding
  offset : Nat
deriving DecidableEq, Repr, Inhabited

/-- Embeds `naga::TypeInner` (naga 0.12, the version the crate builds against). -/
inductive TypeInner where
  | Scalar (kind : ScalarKind) (width : Nat)
  | Vector (size : VectorSize) (kind : ScalarKind) (width : Nat)
  | Matrix (columns : VectorSize) (rows : VectorSize) (width : Nat)
  | Atomic (kind : ScalarKind) (width : Nat)
  | Pointer (base : Handle) (space : AddressSpace)
  | ValuePointer (size : Option VectorSize) (kind : ScalarKind) (width : Nat)
      (space : AddressSpace)
  | Array (base : Handle) (size : ArraySize) (stride : Nat)
  | Struct (members : List StructMember) (span : Nat)
  | Image (dim : ImageDimension) (arrayed : Bool) (variant : ImageVariant)
  | Sampler (comparison : Bool)
  | AccelerationStructure
  | RayQuery
  | BindingArray (base : Handle) (size : ArraySize)
deriving DecidableEq, Repr, Inhabited

/-- Embeds `naga::Type` (`Type` is reserved in Lean). -/
structure NagaType where
  name : Option String
  inner : TypeInner
deriving DecidableEq, Repr, Inhabited

/-- Embeds `naga::ScalarValue`.  `Sint` holds an `i64`, `Uint` a `u64`.  `Float`
keeps the raw `f64` bit pattern: the validation code never compares float
values (the catch-all arm rejects them), so only syntactic identity of the
representation matters. -/
inductive ScalarValue where
  | Sint (v : Int)
  | Uint (v : Nat)
  | Float (bits : Nat)
  | Bool (b : Bool)
deriving DecidableEq, Repr, Inhabited

/-- Embeds `naga::ConstantInner`. -/
inductive ConstantInner where
  | Scalar (width : Nat) (value : ScalarValue)
  | Composite (ty : Handle) (components : List Handle)
deriving DecidableEq, Repr, Inhabited

/-- Embeds `naga::Constant`; `specialization` is kept as an opaque `Option Nat`. -/
structure Constant where
  name : Option String
  specialization : Option Nat
  inner : ConstantInner
deriving DecidableEq, Repr, Inhabited

/-- Embeds `naga::GlobalVariable`. -/
structure GlobalVariable where
  name : Option String
  space : AddressSpace
  binding : Option ResourceBinding
  ty : Handle
  init : Option Handle
deriving DecidableEq, Repr, Inhabited

/-- Embeds `naga::ShaderStage`. -/
inductive ShaderStage where
  | Vertex
  | Fragment
  | Compute
deriving DecidableEq, Repr, Inhabited

/-- Embeds `naga::FunctionArgument`. -/
structure FunctionArgument where
  name : Option String
  ty : Handle
  binding : Option ShaderBinding
deriving DecidableEq, Repr, Inhabited

/-- Embeds `naga::Function`, restricted to the field the validation reads. -/
structure NagaFunction where
  arguments : List FunctionArgument
deriving DecidableEq, Repr, Inhabited

/-- Embeds `naga::EntryPoint`, restricted to the fields the validation reads. -/
structure EntryPoint where
  name : String
  stage : ShaderStage
  function : NagaFunction
deriving DecidableEq, Repr, Inhabited

/-- Embeds `naga::Module`, restricted to the arenas the validation reads.  Arena
handles index into these lists. -/
structure NagaModule where
  types : List NagaType
  constants : List Constant
  global_variables : List GlobalVariable
  entry_points : List EntryPoint
deriving DecidableEq, Repr, Inhabited

/-- Arena lookup `module.types[handle]`.  Rust panics on an out-of-range
handle; naga modules never contain one, and the lookup is total here via a
default. -/
def NagaModule.getType (m : NagaModule) (h : Handle) : NagaType :=
  m.types.getD h default

/-- Arena lookup `module.constants[handle]`. -/
def NagaModule.getConstant (m : NagaModule) (h : Handle) : Constant :=
  m.constants.getD h default

/-- Embeds `naga::TypeInner::canonical_form` (naga 0.12): a `Pointer` to a scalar
or vector type becomes the equivalent `ValuePointer`; everything else has
no distinct canonical form (`None`). -/
def TypeInner.canonical_form (inner : TypeInner) (types : List NagaType) :
    Option TypeInner :=
  match inner with
  | .Pointer base space =>
    match (types.getD base default).inner with
    | .Scalar kind width => some (.ValuePointer none kind width space)
    | .Vector size kind width => some (.ValuePointer (some size) kind width space)
    | _ => none
  | _ => none

/-! ## `transformations/shader/validation.rs` -/

/-- Embeds `ArraySizeOrConstant` from `validation.rs`. -/
inductive ArraySizeOrConstant where
  | ArraySize (s : ArraySize)
  | Constant (c : Constant)
deriving DecidableEq, Repr, Inhabited

/-- Embeds `TypeEquivalenceError` from `validation.rs`. -/
inductive TypeEquivalenceError where
  | TypeNameMismatch (n1 n2 : Option String)
  | TypeStructureMismatch (expected actual : TypeInner)
  | ArraySizeMismatch (a b : ArraySizeOrConstant)
  | CompositeTypeAsArrayLen (c : ConstantInner)
deriving DecidableEq, Repr, Inhabited

/-- Embeds `ShaderValidationError` from `validation.rs`. -/
inductive ShaderValidationError where
  | GlobalNotFound (g : GlobalVariable)
  | GlobalBadType (e : TypeEquivalenceError)
  | VertexShaderNotFound
  | VertexShaderBadArgumentAmount (n : Nat)
  | VertexShaderBadInputTypeName (s : String)
  | VertexShaderBadInput (e : TypeEquivalenceError)
deriving DecidableEq, Repr, Inhabited

/-- The `*a as u64` cast applied to the `i64` payload of
`ScalarValue::Sint`: two's-complement reinterpretation modulo `2 ^ 64`. -/
def sint_as_u64 (a : Int) : Nat :=
  (a % (2 : Int) ^ 64).toNat

/-- Embeds `validate_constant_value_equivalent` from `validation.rs`. -/
def validate_constant_value_equivalent (c1 : Handle) (mod1 : NagaModule)
    (c2 : Handle) (mod2 : NagaModule) : Except TypeEquivalenceError Unit :=
  let ci1 := (mod1.getConstant c1).inner
  let ci2 := (mod2.getConstant c2).inner
  let mismatch : Except TypeEquivalenceError Unit :=
    .error (.ArraySizeMismatch (.Constant (mod1.getConstant c1))
      (.Constant (mod2.getConstant c2)))
  match ci1, ci2 with
  | _, .Composite t cs => .error (.CompositeTypeAsArrayLen (.Composite t cs))
  | .Scalar _ v1, .Scalar _ v2 =>
    match v1, v2 with
    | .Sint a, .Sint b => if a = b then .ok () else mismatch
    | .Uint a, .Uint b => if a = b then .ok () else mismatch
    | .Sint a, .Uint b => if sint_as_u64 a = b then .ok () else mismatch
    | .Uint b, .Sint a => if sint_as_u64 a = b then .ok () else mismatch
    | _, _ => mismatch
  | .Composite t cs, _ => .error (.CompositeTypeAsArrayLen (.Composite t cs))

/-- Embeds `validate_array_size_equivalent` from `validation.rs`. -/
def validate_array_size_equivalent (size1 : ArraySize) (mod1 : NagaModule)
    (size2 : ArraySize) (mod2 : NagaModule) : Except TypeEquivalenceError Unit :=
  match size1, size2 with
  | .Constant c1, .Dynamic =>
    .error (.ArraySizeMismatch (.ArraySize (.Constant c1)) (.ArraySize .Dynamic))
  | .Dynamic, .Constant c2 =>
    .error (.ArraySizeMismatch (.ArraySize .Dynamic) (.ArraySize (.Constant c2)))
  | .Constant c1, .Constant c2 => validate_constant_value_equivalent c1 mod1 c2 mod2
  | .Dynamic, .Dynamic => .ok ()

/-- The member loop of the `Struct` arm of `validate_type_equivalent`:
members are compared pairwise in order; a `(binding, name, offset)` mismatch
yields `TypeStructureMismatch` on the whole struct types, and member types
are compared recursively through `f` (the fuelled recursive call). -/
def validateMembersAux (f : Handle → Handle → Option (Except TypeEquivalenceError Unit)) :
    List StructMember → List StructMember → TypeInner → TypeInner →
    Option (Except TypeEquivalenceError Unit)
  | [], _, _, _ => some (.ok ())
  | _ :: _, [], _, _ => some (.ok ())
  | m1 :: r1, m2 :: r2, t1, t2 =>
    if m1.binding ≠ m2.binding ∨ m1.name ≠ m2.name ∨ m1.offset ≠ m2.offset then
      some (.error (.TypeStructureMismatch t1 t2))
    else
      match f m1.ty m2.ty with
      | some (.ok _) => validateMembersAux f r1 r2 t1 t2
      | other => other

/-- Embeds `validate_type_equivalent` from `validation.rs`, with an explicit fuel
for the recursion over arena handles (in a well-formed naga arena a type's
components have strictly smaller handles, so a fuel of `types.length + 1`
never runs out; `none` models running out of fuel or the `panic!` of the
`Pointer` arm). -/
def validate_type_equivalent_fuel :
    Nat → Handle → NagaModule → Handle → NagaModule →
    Option (Except TypeEquivalenceError Unit)
  | 0, _, _, _, _ => none
  | fuel + 1, ty1, mod1, ty2, mod2 =>
    let type1 := mod1.getType ty1
    let type2 := mod2.getType ty2
    if type1.name ≠ type2.name then
      some (.error (.TypeNameMismatch type1.name type2.name))
    else
      let ti1 := (type1.inner.canonical_form mod1.types).getD type1.inner
      let ti2 := (type2.inner.canonical_form mod2.types).getD type2.inner
      match ti1 with
      | .Array base1 size1 stride1 =>
        match ti2 with
        | .Array base2 size2 stride2 =>
          if stride1 ≠ stride2 then
            some (.error (.TypeStructureMismatch (.Array base1 size1 stride1)
              (.Array base2 size2 stride2)))
          else
            match validate_array_size_equivalent size1 mod1 size2 mod2 with
            | .error e => some (.error e)
            | .ok _ => validate_type_equivalent_fuel fuel base1 mod1 base2 mod2
        | _ => some (.error (.TypeStructureMismatch (.Array base1 size1 stride1) ti2))
      | .BindingArray base1 size1 =>
        match ti2 with
        | .BindingArray base2 size2 =>
          match validate_array_size_equivalent size1 mod1 size2 mod2 with
          | .error e => some (.error e)
          | .ok _ => validate_type_equivalent_fuel fuel base1 mod1 base2 mod2
        | _ => some (.error (.TypeStructureMismatch (.BindingArray base1 size1) ti2))
      | .Struct members1 span1 =>
        match ti2 with
        | .Struct members2 span2 =>
          if span1 ≠ span2 ∨ members1.length ≠ members2.length then
            some (.error (.TypeStructureMismatch (.Struct members1 span1)
              (.Struct members2 span2)))
          else
            validateMembersAux
              (fun h1 h2 => validate_type_equivalent_fuel fuel h1 mod1 h2 mod2)
              members1 members2 (.Struct members1 span1) (.Struct members2 span2)
        | _ => some (.error (.TypeStructureMismatch (.Struct members1 span1) ti2))
      | .Pointer _ _ => none
      | other =>
        if other = ti2 then some (.ok ())
        else some (.error (.TypeStructureMismatch type1.inner type2.inner))

/-- Embeds `validate_type_equivalent(ty1, mod1, ty2, mod2)`: the Rust function has
no fuel; `mod1.types.length + 1` is enough for every well-formed arena. -/
def validate_type_equivalent (ty1 : Handle) (mod1 : NagaModule) (ty2 : Handle)
    (mod2 : NagaModule) : Option (Except TypeEquivalenceError Unit) :=
  validate_type_equivalent_fuel (mod1.types.length + 1) ty1 mod1 ty2 mod2

/-- The body of the `for` loop of `validate_globals`, for one header global:
find the first shader global with the same address space and binding
(`GlobalNotFound` if none), then compare types (`GlobalBadType` on error). -/
def checkGlobal (header : NagaModule) (shader : NagaModule) (global : GlobalVariable) :
    Option (Except ShaderValidationError Unit) :=
  match shader.global_variables.find?
      (fun s_global =>
        decide (s_global.space = global.space ∧ s_global.binding = global.binding)) with
  | none => some (.error (.GlobalNotFound global))
  | some global_in_shader =>
    match validate_type_equivalent global.ty header global_in_shader.ty shader with
    | none => none
    | some (.error e) => some (.error (.GlobalBadType e))
    | some (.ok _) => some (.ok ())

/-- The `for` loop of `validate_globals` over a list of header globals:
the first failing global's error is returned. -/
def validate_globals_list (header : NagaModule) (shader : NagaModule) :
    List GlobalVariable → Option (Except ShaderValidationError Unit)
  | [] => some (.ok ())
  | g :: rest =>
    match checkGlobal header shader g with
    | some (.ok _) => validate_globals_list header shader rest
    | other => other

/-- Embeds `validate_globals` from `validation.rs`. -/
def validate_globals (header : NagaModule) (shader : NagaModule) :
    Option (Except ShaderValidationError Unit) :=
  validate_globals_list header shader header.global_variables

/-- Embeds `VERTEX_ENTRYPOINT_NAME` from `wgpu/shader.rs`. -/
def VERTEX_ENTRYPOINT_NAME : String := "vs_main"

/-- Embeds `validate_vertex_input` from `validation.rs`. -/
def validate_vertex_input (header : NagaModule) (shader : NagaModule) :
    Option (Except ShaderValidationError Unit) :=
  match shader.entry_points.find?
      (fun entry_point =>
        decide (entry_point.name = VERTEX_ENTRYPOINT_NAME ∧
          entry_point.stage = ShaderStage.Vertex)) with
  | none => some (.error .VertexShaderNotFound)
  | some vertex =>
    if vertex.function.arguments.length ≠ 1 then
      some (.error (.VertexShaderBadArgumentAmount vertex.function.arguments.length))
    else
      match header.types.findIdx? (fun ty => ty.name ==
          (shader.getType (vertex.function.arguments.getD 0 default).ty).name) with
      | none =>
        some (.error (.VertexShaderBadInputTypeName
          ((shader.getType (vertex.function.arguments.getD 0 default).ty).name.getD
            "<unknown>")))
      | some header_vertex_input =>
        match validate_type_equivalent header_vertex_input header
            (vertex.function.arguments.getD 0 default).ty shader with
        | none => none
        | some (.error e) => some (.error (.VertexShaderBadInput e))
        | some (.ok _) => some (.ok ())

/-- Embeds `validate_contains_header` from `validation.rs`. -/
def validate_contains_header (header : NagaModule) (shader : NagaModule) :
    Option (Except ShaderValidationError Unit) :=
  match validate_globals header shader with
  | some (.ok _) => validate_vertex_input header shader
  | other => other

/-! ## `wgpu/shader.rs`: `WgpuShader::validate_params` -/

/-- Embeds `USER_DEFINED_BUFFER_GROUP` from `wgpu/shader.rs`. -/
def USER_DEFINED_BUFFER_GROUP : Nat := 1

/-- Embeds `USER_DEFINED_BUFFER_BINDING` from `wgpu/shader.rs`. -/
def USER_DEFINED_BUFFER_BINDING : Nat := 0

/-- Modelled from the spec: `ShaderParam`, the user's `shader_params` value
(`compositor_common`, not under `src/`) — "a typed value tree: scalars,
vecs, lists, structs".  Float scalars keep their bit pattern. -/
inductive ShaderParam where
  | I32 (v : Int)
  | U32 (v : Nat)
  | F32 (bits : Nat)
  | List (items : List ShaderParam)
  | Struct (fields : List (String × ShaderParam))
deriving Repr, Inhabited

/-- Modelled from the spec: `ParametersValidationError`
(`compositor_render`, definition not under `src/`); only the
`NoBindingInShader` variant is decided by code under `src/`, the remaining
variants are abstracted into one carrier. -/
inductive ParametersValidationError where
  | NoBindingInShader
  | OtherValidationFailure (detail : Nat)
deriving DecidableEq, Repr, Inhabited

/-- Embeds `WgpuShader::validate_params` from `wgpu/shader.rs`: find the global at
`(USER_DEFINED_BUFFER_GROUP, USER_DEFINED_BUFFER_BINDING)` (a global with
no binding never matches); if none exists the result is
`NoBindingInShader`, otherwise the free function `validate_params` (not
under `src/`) — abstracted here as the argument `inner` — checks `params`
against the found type. -/
def WgpuShader.validate_params
    (inner : ShaderParam → Handle → NagaModule → Except ParametersValidationError Unit)
    (shader : NagaModule) (params : ShaderParam) :
    Except ParametersValidationError Unit :=
  match shader.global_variables.find?
      (fun global =>
        match global.binding with
        | some binding =>
          decide ((binding.group, binding.binding) =
            (USER_DEFINED_BUFFER_GROUP, USER_DEFINED_BUFFER_BINDING))
        | none => false) with
  | none => .error .NoBindingInShader
  | some global => inner params global.ty shader

/-! ## `compositor_common/src/error.rs`: `ErrorStack`

A `&dyn Error` is modelled as its observable behaviour: a `Display` string
and an optional `source()` link, which yields a finite chain (Rust error
sources are finite in practice; `ErrorStack` walks them). -/

/-- A `dyn std::error::Error` value: its `Display` rendering plus its
`source()` chain (`leaf` = `source()` returns `None`). -/
inductive DynError where
  | leaf (msg : String)
  | node (msg : String) (src : DynError)
deriving DecidableEq, Repr, Inhabited

/-- Embeds `Display::to_string` of the error. -/
def DynError.display : DynError → String
  | .leaf msg => msg
  | .node msg _ => msg

/-- Embeds `Error::source`. -/
def DynError.source : DynError → Option DynError
  | .leaf _ => none
  | .node _ src => some src

/-- The `Iterator::next` of `ErrorStack`: yields the current error and
advances the state to its `source()`. -/
def ErrorStack.next (state : Option DynError) :
    Option (DynError × Option DynError) :=
  state.map (fun err => (err, err.source))

/-- Collecting the iterator from a `some` state: the `Display` strings
yielded by repeated `ErrorStack.next` starting at `err`. -/
def ErrorStack.collectFrom : DynError → List String
  | .leaf msg => [msg]
  | .node msg src => msg :: ErrorStack.collectFrom src

/-- Collecting the iterator (`self.map(ToString::to_string).collect()`):
the `Display` strings yielded by repeated `ErrorStack.next`. -/
def ErrorStack.collectStrings : Option DynError → List String
  | none => []
  | some err => ErrorStack.collectFrom err

/-- Embeds `Vec<String>::join("\n")` from Rust's standard library: concatenation
with the separator between consecutive elements. -/
def joinNewline : List String → String
  | [] => ""
  | [s] => s
  | s :: rest => s ++ "\n" ++ joinNewline rest

/-- Embeds `ErrorStack::new(value).into_string()` from `error.rs`. -/
def ErrorStack.into_string (value : DynError) : String :=
  joinNewline (ErrorStack.collectStrings (some value))

/-! ## `compositor_pipeline/src/pipeline.rs`: the pipeline state machine

Identifier types and the scene specification live in
`compositor_common::scene`, which is not under `src/`; they are modelled
from the spec (§3): identifiers are opaque strings, a `NodeSpec` carries
`node_id`, `input_pads` and an optional `fallback_id`, an `OutputSpec`
carries `output_id` and `input_pad`. -/

/-- Modelled from the spec: `NodeId` — an opaque string. -/
abbrev NodeId := String

/-- Modelled from the spec: `InputId` — an opaque string sharing the
`NodeId` namespace (`InputId.0` is a `NodeId`). -/
abbrev InputId := String

/-- Modelled from the spec: `OutputId` — an opaque string. -/
abbrev OutputId := String

/-- Modelled from the spec: `NodeSpec` restricted to the fields the
pipeline operations read (`params` is never read by `pipeline.rs`). -/
structure NodeSpec where
  node_id : NodeId
  input_pads : List NodeId
  fallback_id : Option NodeId
deriving DecidableEq, Repr, Inhabited

/-- Modelled from the spec: `OutputSpec`. -/
structure OutputSpec where
  output_id : OutputId
  input_pad : NodeId
deriving DecidableEq, Repr, Inhabited

/-- Modelled from the spec: `SceneSpec`. -/
structure SceneSpec where
  nodes : List NodeSpec
  outputs : List OutputSpec
deriving DecidableEq, Repr, Inhabited

/-- Embeds `Resolution` from `compositor_common::scene` (usize width/height). -/
structure Resolution where
  width : Nat
  height : Nat
deriving DecidableEq, Repr, Inhabited

/-- Embeds `OutputOptions` restricted to the field `register_output` inspects;
`receiver_options` and `encoder_settings` are consumed opaquely by
`Encoder::new`, which is abstracted as an oracle argument below. -/
structure OutputOptions where
  resolution : Resolution
deriving DecidableEq, Repr, Inhabited

/-- Embeds `RegisterInputError` from `compositor_pipeline::error` (not under
`src/`; variant named by `pipeline.rs`). -/
inductive RegisterInputError where
  | AlreadyRegistered (id : InputId)
deriving DecidableEq, Repr, Inhabited

/-- Embeds `UnregisterInputError` from `compositor_pipeline::error` (not under
`src/`; variants named by `pipeline.rs`). -/
inductive UnregisterInputError where
  | NotFound (id : InputId)
  | StillInUse (id : InputId)
deriving DecidableEq, Repr, Inhabited

/-- Embeds `RegisterOutputError` from `compositor_pipeline::error` (not under
`src/`; variants named by `pipeline.rs`; the encoder error payload is
dropped). -/
inductive RegisterOutputError where
  | AlreadyRegistered (id : OutputId)
  | UnsupportedResolution (id : OutputId)
  | EncoderError (id : OutputId)
deriving DecidableEq, Repr, Inhabited

/-- Embeds `UnregisterOutputError` from `compositor_pipeline::error` (not under
`src/`; variants named by `pipeline.rs`). -/
inductive UnregisterOutputError where
  | NotFound (id : OutputId)
  | StillInUse (id : OutputId)
deriving DecidableEq, Repr, Inhabited

/-- The `Pipeline` state (`pipeline.rs`): registered inputs (keys of the
`inputs` map), registered outputs with the resolution their encoder was
created at, the queue's per-input buffers (created/removed alongside
registration, per the spec), the installed scene spec held by the
renderer, and the `is_started` flag.  `spawned_render_threads` counts the
observable effect of `start` (channel creation plus render-thread
spawn). -/
structure Pipeline where
  inputs : List InputId
  outputs : List (OutputId × Resolution)
  queue_inputs : List InputId
  scene_spec : SceneSpec
  is_started : Bool
  spawned_render_threads : Nat
deriving DecidableEq, Repr, Inhabited

/-- Embeds `Pipeline::new` (the fields relevant to the modelled state): empty
registries, the renderer's initial empty scene, `is_started: false`. -/
def Pipeline.new : Pipeline :=
  { inputs := []
    outputs := []
    queue_inputs := []
    scene_spec := { nodes := [], outputs := [] }
    is_started := false
    spawned_render_threads := 0 }

/-- Embeds `Pipeline::register_input`: reject a duplicate id, otherwise insert the
decoder and `queue.add_input`. -/
def Pipeline.register_input (p : Pipeline) (input_id : InputId) :
    Except RegisterInputError Unit × Pipeline :=
  if p.inputs.contains input_id then
    (.error (.AlreadyRegistered input_id), p)
  else
    (.ok (), { p with
      inputs := input_id :: p.inputs
      queue_inputs := input_id :: p.queue_inputs })

/-- Embeds `Pipeline::unregister_input`: `NotFound` for an unregistered id;
`StillInUse` when some node of the installed scene lists the id among its
`input_pads` (this is the only reference check the source performs);
otherwise remove the decoder and `queue.remove_input`. -/
def Pipeline.unregister_input (p : Pipeline) (input_id : InputId) :
    Except UnregisterInputError Unit × Pipeline :=
  if ¬ p.inputs.contains input_id then
    (.error (.NotFound input_id), p)
  else if p.scene_spec.nodes.any
      (fun node => node.input_pads.any (fun input_pad_id => input_id == input_pad_id)) then
    (.error (.StillInUse input_id), p)
  else
    (.ok (), { p with
      inputs := p.inputs.erase input_id
      queue_inputs := p.queue_inputs.erase input_id })

/-- Embeds `Pipeline::register_output`: reject a duplicate id, then reject a
resolution with odd height or odd width, then run `Encoder::new`
(abstracted as the oracle `encoder_ok`; on its failure `EncoderError`),
and only then insert the output. -/
def Pipeline.register_output (encoder_ok : OutputOptions → Bool) (p : Pipeline)
    (output_id : OutputId) (output_opts : OutputOptions) :
    Except RegisterOutputError Unit × Pipeline :=
  if p.outputs.any (fun o => o.1 == output_id) then
    (.error (.AlreadyRegistered output_id), p)
  else if output_opts.resolution.height % 2 ≠ 0 ∨ output_opts.resolution.width % 2 ≠ 0 then
    (.error (.UnsupportedResolution output_id), p)
  else if ¬ encoder_ok output_opts then
    (.error (.EncoderError output_id), p)
  else
    (.ok (), { p with outputs := (output_id, output_opts.resolution) :: p.outputs })

/-- Embeds `Pipeline::unregister_output`: `NotFound` for an unregistered id;
`StillInUse` when some output of the installed scene references the id;
otherwise remove the output. -/
def Pipeline.unregister_output (p : Pipeline) (output_id : OutputId) :
    Except UnregisterOutputError Unit × Pipeline :=
  if ¬ p.outputs.any (fun o => o.1 == output_id) then
    (.error (.NotFound output_id), p)
  else if p.scene_spec.outputs.any (fun node => node.output_id == output_id) then
    (.error (.StillInUse output_id), p)
  else
    (.ok (), { p with outputs := p.outputs.filter (fun o => ¬ o.1 == output_id) })

/-- Embeds `Pipeline::update_scene`: `SceneSpec::validate` lives in
`compositor_common` (not under `src/`) and is abstracted as the oracle
`validate_ok`; on success the renderer installs the new scene, on failure
nothing changes.  Registered outputs are untouched either way. -/
def Pipeline.update_scene (validate_ok : SceneSpec → Bool) (p : Pipeline)
    (scene_spec : SceneSpec) : Except Unit Unit × Pipeline :=
  if validate_ok scene_spec then
    (.ok (), { p with scene_spec := scene_spec })
  else
    (.error (), p)

/-- Embeds `Pipeline::start`: when `is_started` is already observed `true` the
call logs and returns early; otherwise it creates the frames channel,
starts the queue and spawns the render-loop thread.  Mirroring the source,
the `is_started` flag is **never set to `true`**. -/
def Pipeline.start (p : Pipeline) : Pipeline :=
  if p.is_started then p
  else { p with spawned_render_threads := p.spawned_render_threads + 1 }

/-- One iteration of the render loop spawned by `Pipeline::start`: take the
oldest frame set from the channel backlog (blocking when empty); if more
than 20 frame sets still remain pending, drop the taken set with a warning
(first component `none`), otherwise render it (first component `some`).
The backlog list is ordered oldest first. -/
def render_loop_iteration {FrameSet : Type} (backlog : List FrameSet) :
    Option FrameSet × List FrameSet :=
  match backlog with
  | [] => (none, [])
  | input_frames :: rest =>
    if rest.length > 20 then (none, rest)
    else (some input_frames, rest)

/-- The claim-side rendering of an error chain (spec §7): the `Display`
strings of the error and of each successive `source()`, in order, joined
by single newline characters. -/
def displayChainJoined : DynError → String
  | .leaf msg => msg
  | .node msg src => msg ++ "\n" ++ displayChainJoined src

/-- The output-parity invariant of claim C4: every registered output has
even width and even height. -/
def outputsEven (p : Pipeline) : Prop :=
  ∀ o ∈ p.outputs, o.2.width % 2 = 0 ∧ o.2.height % 2 = 0

/-! ## Concrete fixtures used by witnesses and counterexamples -/

/-- A pipeline whose installed scene references the registered input
`"input_1"` only through a node's `fallback_id`, never through
`input_pads`. -/
def fallbackPipeline : Pipeline :=
  { Pipeline.new with
    inputs := ["input_1"]
    queue_inputs := ["input_1"]
    scene_spec :=
      { nodes := [{ node_id := "node_1", input_pads := [],
                    fallback_id := some "input_1" }]
        outputs := [{ output_id := "output_1", input_pad := "node_1" }] } }

/-- A pipeline with one registered output `"output_1"` of even resolution. -/
def evenOutputPipeline : Pipeline :=
  { Pipeline.new with outputs := [("output_1", ⟨2, 2⟩)] }

/-- Output options requesting an odd 3×3 resolution. -/
def oddOpts : OutputOptions := ⟨⟨3, 3⟩⟩

/-- A header module declaring two types, `VertexInput` and `Other`, and no
globals. -/
def headerTwoTypes : NagaModule :=
  { types := [⟨some "VertexInput", .Scalar .Float 4⟩,
              ⟨some "Other", .Scalar .Uint 4⟩]
    constants := []
    global_variables := []
    entry_points := [] }

/-- A user module whose `vs_main` takes one argument of the type named
`Other` (structurally equal to the header's `Other`, but not to the
header's `VertexInput`). -/
def shaderOtherInput : NagaModule :=
  { types := [⟨some "Other", .Scalar .Uint 4⟩]
    constants := []
    global_variables := []
    entry_points := [⟨"vs_main", .Vertex, ⟨[⟨some "input", 0, none⟩]⟩⟩] }

/-- The empty module: no types, constants, globals or entry points. -/
def emptyModule : NagaModule :=
  { types := [], constants := [], global_variables := [], entry_points := [] }

/-- A header module declaring a single uniform global at `(0, 0)` of the
scalar type `f32`. -/
def headerOneGlobal : NagaModule :=
  { types := [⟨none, .Scalar .Float 4⟩]
    constants := []
    global_variables := [⟨some "base_params", .Uniform, some ⟨0, 0⟩, 0, none⟩]
    entry_points := [] }

/-- A module with one scalar constant `i32` of value 16. -/
def constModSint : NagaModule :=
  { types := [], constants := [⟨none, none, .Scalar 4 (.Sint 16)⟩]
    global_variables := [], entry_points := [] }

/-- A module with one scalar constant `u32` of value 16. -/
def constModUint : NagaModule :=
  { types := [], constants := [⟨none, none, .Scalar 4 (.Uint 16)⟩]
    global_variables := [], entry_points := [] }

/-- A module with two named scalar types `A` and `B` sharing a
bit-identical inner representation. -/
def namedScalarA : NagaModule :=
  { types := [⟨some "A", .Scalar .Float 4⟩]
    constants := [], global_variables := [], entry_points := [] }

/-- Same inner representation as `namedScalarA`'s type, under the name `B`. -/
def namedScalarB : NagaModule :=
  { types := [⟨some "B", .Scalar .Float 4⟩]
    constants := [], global_variables := [], entry_points := [] }

/-- A shader module with globals at `(0, 0)` and an unbound global, but
none at `(1, 0)`. -/
def shaderNoUserBinding : NagaModule :=
  { types := [⟨none, .Scalar .Float 4⟩]
    constants := []
    global_variables := [⟨some "a", .Uniform, some ⟨0, 0⟩, 0, none⟩,
                         ⟨some "b", .Private, none, 0, none⟩]
    entry_points := [] }

/-! ## Theorems -/

/-- Claim C6. In the render loop spawned by `Pipeline::start`, the frame set
taken from the channel is rendered exactly when at most 20 frame sets
remain pending at that moment; with more than 20 pending, the taken
(oldest) set is dropped without being rendered and the rest of the backlog
is untouched. -/
theorem render_loop_threshold {FrameSet : Type} (input_frames : FrameSet)
    (rest : List FrameSet) :
    ((render_loop_iteration (input_frames :: rest)).1 = some input_frames ↔
      rest.length ≤ 20) ∧
    (rest.length > 20 → render_loop_iteration (input_frames :: rest) = (none, rest)) ∧
    (render_loop_iteration (input_frames :: rest)).2 = rest := by
  unfold render_loop_iteration
  by_cases h : rest.length > 20
  · simp [h]
  · simp [h]
    omega

/-- Witness for C6: with 21 frame sets still pending after the take, the
taken set is dropped. -/
theorem render_loop_threshold_witness :
    render_loop_iteration ((0 : Nat) :: List.replicate 21 0) =
      (none, List.replicate 21 0) :=
  (render_loop_threshold 0 (List.replicate 21 0)).2.1 (by decide)

/-- Claim C8. `ErrorStack::new(e).into_string()` is the `Display` strings of
`e` and of each successive `source()`, in order, joined by single
newlines; for an error with no source it is the `Display` string alone. -/
theorem error_stack_into_string_spec (e : DynError) :
    ErrorStack.into_string e = displayChainJoined e ∧
    (∀ msg, ErrorStack.into_string (.leaf msg) = msg) := by
  have collect_ne : ∀ d : DynError, ErrorStack.collectFrom d ≠ [] := by
    intro d; cases d <;> simp [ErrorStack.collectFrom]
  have join_cons : ∀ (s : String) (l : List String), l ≠ [] →
      joinNewline (s :: l) = s ++ "\n" ++ joinNewline l := by
    intro s l hl
    cases l with
    | nil => exact absurd rfl hl
    | cons a as => rfl
  constructor
  · induction e with
    | leaf msg => rfl
    | node msg src ih =>
      show joinNewline (ErrorStack.collectFrom (.node msg src)) = _
      rw [show ErrorStack.collectFrom (.node msg src) =
        msg :: ErrorStack.collectFrom src from rfl]
      rw [join_cons msg _ (collect_ne src)]
      show msg ++ "\n" ++ joinNewline (ErrorStack.collectFrom src) = _
      have : joinNewline (ErrorStack.collectFrom src) = displayChainJoined src := ih
      rw [this]; rfl
  · intro msg; rfl

/-- Claim C9. Structural type equivalence demands equal type names before
anything else: whenever the two compared types' names differ (including a
named type against an anonymous one), `validate_type_equivalent` fails with
`TypeNameMismatch`, regardless of the inner structures. -/
theorem validate_type_name_mismatch (ty1 : Handle) (mod1 : NagaModule)
    (ty2 : Handle) (mod2 : NagaModule)
    (h : (mod1.getType ty1).name ≠ (mod2.getType ty2).name) :
    validate_type_equivalent ty1 mod1 ty2 mod2 =
      some (.error (.TypeNameMismatch (mod1.getType ty1).name
        (mod2.getType ty2).name)) := by
  unfold validate_type_equivalent validate_type_equivalent_fuel
  simp [h]

/-- Witness for C9: two scalar types with bit-identical inners and names
`A` and `B` are rejected with `TypeNameMismatch`. -/
theorem validate_type_name_mismatch_witness :
    validate_type_equivalent 0 namedScalarA 0 namedScalarB =
      some (.error (.TypeNameMismatch (namedScalarA.getType 0).name
        (namedScalarB.getType 0).name)) :=
  validate_type_name_mismatch 0 namedScalarA 0 namedScalarB (by decide)

/-- Claim C10. (code bug) `Pipeline::start` never assigns
`is_started = true`, so a second `start` on a fresh pipeline does *not*
return early: it observes `is_started == false` again and spawns a second
render-loop thread with a second frames channel. -/
theorem pipeline_start_never_sets_started :
    (Pipeline.new.start).is_started = false ∧
    (Pipeline.new.start).spawned_render_threads = 1 ∧
    ((Pipeline.new.start).start).spawned_render_threads = 2 := by
  decide

/-- Claim C7. When the parsed WGSL module declares no global bound at
`(group = 1, binding = 0)`, `WgpuShader::validate_params` answers
`NoBindingInShader` for every supplied `shader_params` value, whatever the
downstream parameter validator would have said. -/
theorem validate_params_no_binding
    (inner : ShaderParam → Handle → NagaModule → Except ParametersValidationError Unit)
    (shader : NagaModule) (params : ShaderParam)
    (h : ∀ g ∈ shader.global_variables,
      g.binding ≠ some ⟨USER_DEFINED_BUFFER_GROUP, USER_DEFINED_BUFFER_BINDING⟩) :
    WgpuShader.validate_params inner shader params = .error .NoBindingInShader := by
  unfold WgpuShader.validate_params
  have hfind : shader.global_variables.find?
      (fun global =>
        match global.binding with
        | some binding =>
          decide ((binding.group, binding.binding) =
            (USER_DEFINED_BUFFER_GROUP, USER_DEFINED_BUFFER_BINDING))
        | none => false) = none := by
    rw [List.find?_eq_none]
    intro g hg
    cases hb : g.binding with
    | none => simp
    | some binding =>
      simp only [decide_eq_true_eq]
      intro heq
      apply h g hg
      rw [hb]
      cases binding
      simp_all [Prod.ext_iff]
  rw [hfind]

/-- Witness for C7: a module with globals only at `(0,0)` and unbound is
rejected with `NoBindingInShader` on a non-empty parameter value. -/
theorem validate_params_no_binding_witness :
    WgpuShader.validate_params (fun _ _ _ => .ok ()) shaderNoUserBinding
      (.List [.I32 5]) = .error .NoBindingInShader :=
  validate_params_no_binding (fun _ _ _ => .ok ()) shaderNoUserBinding
    (.List [.I32 5]) (by decide)

/-- Counterexample to **C3** as stated: the installed scene of
`fallbackPipeline` still uses the registered input `"input_1"` (as a
node's `fallback_id`), yet `unregister_input` succeeds instead of
returning `StillInUse` — the source checks only `input_pads`. -/
theorem unregister_input_fallback_counterexample :
    (fallbackPipeline.scene_spec.nodes.any (fun node =>
      node.input_pads.contains "input_1" ||
        node.fallback_id == some "input_1")) = true ∧
    (fallbackPipeline.unregister_input "input_1").1 = .ok () := by
  decide

/-- Claim C3 (amended): `unregister_input` returns `NotFound` for an
unregistered id; for a registered id it returns `StillInUse` — leaving
inputs and queues unchanged — exactly when some node of the installed
scene lists the id among its `input_pads` (a reference through a node's
`fallback_id` alone does **not** block unregistration); otherwise it
succeeds and removes the input and its queue. -/
theorem unregister_input_spec (p : Pipeline) (input_id : InputId) :
    (¬ p.inputs.contains input_id →
      p.unregister_input input_id = (.error (.NotFound input_id), p)) ∧
    (p.inputs.contains input_id →
      (∃ node ∈ p.scene_spec.nodes, input_id ∈ node.input_pads) →
      p.unregister_input input_id = (.error (.StillInUse input_id), p)) ∧
    (p.inputs.contains input_id →
      (∀ node ∈ p.scene_spec.nodes, input_id ∉ node.input_pads) →
      p.unregister_input input_id =
        (.ok (), { p with inputs := p.inputs.erase input_id,
                          queue_inputs := p.queue_inputs.erase input_id })) := by
  refine ⟨?_, ?_, ?_⟩
  · intro h
    unfold Pipeline.unregister_input
    rw [if_pos h]
  · rintro h ⟨node, hnode, hpad⟩
    have hany : (p.scene_spec.nodes.any
        (fun node => node.input_pads.any
          (fun input_pad_id => input_id == input_pad_id))) = true :=
      List.any_eq_true.mpr ⟨node, hnode,
        List.any_eq_true.mpr ⟨input_id, hpad, by simp⟩⟩
    unfold Pipeline.unregister_input
    rw [if_neg (not_not_intro h), if_pos hany]
  · intro h hnone
    have hany : (p.scene_spec.nodes.any
        (fun node => node.input_pads.any
          (fun input_pad_id => input_id == input_pad_id))) = false := by
      rw [List.any_eq_false]
      intro node hnode
      rw [Bool.not_eq_true, List.any_eq_false]
      intro pad hpad
      rw [Bool.not_eq_true, beq_eq_false_iff_ne]
      rintro rfl
      exact hnone node hnode hpad
    unfold Pipeline.unregister_input
    rw [if_neg (not_not_intro h), if_neg (by simp [hany])]

/-- Witness for C3: on `fallbackPipeline` — whose scene references
`"input_1"` only via `fallback_id` — unregistration succeeds and removes
the input and its queue. -/
theorem unregister_input_spec_witness :
    fallbackPipeline.unregister_input "input_1" =
      (.ok (), { fallbackPipeline with
        inputs := fallbackPipeline.inputs.erase "input_1",
        queue_inputs := fallbackPipeline.queue_inputs.erase "input_1" }) :=
  (unregister_input_spec fallbackPipeline "input_1").2.2 (by decide) (by decide)

/-- Counterexample to **C4** as stated: requesting an odd 3×3 resolution
under an *already registered* output id yields `AlreadyRegistered`, not
`UnsupportedResolution` — the duplicate check precedes the parity check. -/
theorem register_output_already_registered_counterexample :
    oddOpts.resolution.width % 2 = 1 ∧
    (Pipeline.register_output (fun _ => true) evenOutputPipeline "output_1" oddOpts).1 =
      .error (.AlreadyRegistered "output_1") ∧
    (Pipeline.register_output (fun _ => true) evenOutputPipeline "output_1" oddOpts).1 ≠
      .error (.UnsupportedResolution "output_1") := by
  decide

/-- Claim C4 (amended): for an output id that is *not* already registered,
an odd width or height yields `UnsupportedResolution`; on any error the
registered outputs are unchanged; and the parity invariant — every
registered output has even width and height — is preserved by
`register_output` and by every other modelled pipeline operation. -/
theorem register_output_parity_spec (encoder_ok : OutputOptions → Bool)
    (p : Pipeline) (output_id : OutputId) (opts : OutputOptions) :
    (¬ p.outputs.any (fun o => o.1 == output_id) →
      (opts.resolution.height % 2 ≠ 0 ∨ opts.resolution.width % 2 ≠ 0) →
      Pipeline.register_output encoder_ok p output_id opts =
        (.error (.UnsupportedResolution output_id), p)) ∧
    (∀ e, (Pipeline.register_output encoder_ok p output_id opts).1 = .error e →
      (Pipeline.register_output encoder_ok p output_id opts).2 = p) ∧
    (outputsEven p →
      outputsEven (Pipeline.register_output encoder_ok p output_id opts).2) ∧
    (outputsEven p →
      ∀ (input_id : InputId) (out_id : OutputId) (scene : SceneSpec)
        (validate_ok : SceneSpec → Bool),
      outputsEven (p.register_input input_id).2 ∧
      outputsEven (p.unregister_input input_id).2 ∧
      outputsEven (p.unregister_output out_id).2 ∧
      outputsEven (Pipeline.update_scene validate_ok p scene).2 ∧
      outputsEven p.start) := by
  refine ⟨?_, ?_, ?_, ?_⟩
  · intro hdup hodd
    unfold Pipeline.register_output
    rw [if_neg hdup, if_pos hodd]
  · intro e
    unfold Pipeline.register_output
    split
    · simp
    · split
      · simp
      · split
        · simp
        · simp
  · intro heven
    unfold Pipeline.register_output
    split
    · exact heven
    · split
      · exact heven
      · split
        · exact heven
        · rename_i hdup hodd henc
          push_neg at hodd
          intro o ho
          rcases List.mem_cons.mp ho with rfl | hmem
          · exact ⟨hodd.2, hodd.1⟩
          · exact heven o hmem
  · intro heven input_id out_id scene validate_ok
    refine ⟨?_, ?_, ?_, ?_, ?_⟩
    · unfold Pipeline.register_input
      split <;> exact heven
    · unfold Pipeline.unregister_input
      split
      · exact heven
      · split <;> exact heven
    · unfold Pipeline.unregister_output
      split
      · exact heven
      · split
        · exact heven
        · intro o ho
          exact heven o (List.mem_of_mem_filter ho)
    · unfold Pipeline.update_scene
      split <;> exact heven
    · unfold Pipeline.start
      split <;> exact heven

/-- Witness for C4: registering output `"output_1"` with the odd 3×3
resolution on a fresh pipeline is rejected with `UnsupportedResolution`. -/
theorem register_output_parity_spec_witness :
    Pipeline.register_output (fun _ => true) Pipeline.new "output_1" oddOpts =
      (.error (.UnsupportedResolution "output_1"), Pipeline.new) :=
  (register_output_parity_spec (fun _ => true) Pipeline.new "output_1" oddOpts).1
    (by decide) (by decide)

/-- The `i64 as u64` cast is injective on genuine `i32`/`u32` ranges: for
an `i32`-ranged signed value and a `u32`-ranged unsigned value, the wrapped
comparison agrees with comparison of the denoted values. -/
theorem sint_as_u64_eq_iff (a : Int) (b : Nat) (h1 : -(2 : Int) ^ 31 ≤ a)
    (h2 : a < 2 ^ 31) (hb : b < 2 ^ 32) :
    sint_as_u64 a = b ↔ a = (b : Int) := by
  unfold sint_as_u64
  omega

/-- Claim C5. Array and binding-array sizes compare as the claim states:
`Dynamic` matches only `Dynamic` (a `Constant`/`Dynamic` pair is
`ArraySizeMismatch`); two `Constant` sizes compare their scalar constant
values — `i32`/`i32` and `u32`/`u32` by equality, and an `i32` against a
`u32` constant (values in their types' ranges) match exactly when they
denote the same value; a composite constant used as an array length is
rejected with `CompositeTypeAsArrayLen`. -/
theorem array_size_equivalence_spec (mod1 mod2 : NagaModule) :
    (validate_array_size_equivalent .Dynamic mod1 .Dynamic mod2 = .ok ()) ∧
    (∀ c1, validate_array_size_equivalent (.Constant c1) mod1 .Dynamic mod2 =
      .error (.ArraySizeMismatch (.ArraySize (.Constant c1)) (.ArraySize .Dynamic))) ∧
    (∀ c2, validate_array_size_equivalent .Dynamic mod1 (.Constant c2) mod2 =
      .error (.ArraySizeMismatch (.ArraySize .Dynamic) (.ArraySize (.Constant c2)))) ∧
    (∀ c1 c2, validate_array_size_equivalent (.Constant c1) mod1 (.Constant c2) mod2 =
      validate_constant_value_equivalent c1 mod1 c2 mod2) ∧
    (∀ c1 c2 w1 w2 a b, (mod1.getConstant c1).inner = .Scalar w1 (.Sint a) →
      (mod2.getConstant c2).inner = .Scalar w2 (.Sint b) →
      (validate_constant_value_equivalent c1 mod1 c2 mod2 = .ok () ↔ a = b)) ∧
    (∀ c1 c2 w1 w2 a b, (mod1.getConstant c1).inner = .Scalar w1 (.Uint a) →
      (mod2.getConstant c2).inner = .Scalar w2 (.Uint b) →
      (validate_constant_value_equivalent c1 mod1 c2 mod2 = .ok () ↔ a = b)) ∧
    (∀ c1 c2 w1 w2 a b, (mod1.getConstant c1).inner = .Scalar w1 (.Sint a) →
      (mod2.getConstant c2).inner = .Scalar w2 (.Uint b) →
      -(2 : Int) ^ 31 ≤ a → a < 2 ^ 31 → b < 2 ^ 32 →
      (validate_constant_value_equivalent c1 mod1 c2 mod2 = .ok () ↔ a = (b : Int))) ∧
    (∀ c1 c2 w1 w2 a b, (mod1.getConstant c1).inner = .Scalar w1 (.Uint b) →
      (mod2.getConstant c2).inner = .Scalar w2 (.Sint a) →
      -(2 : Int) ^ 31 ≤ a → a < 2 ^ 31 → b < 2 ^ 32 →
      (validate_constant_value_equivalent c1 mod1 c2 mod2 = .ok () ↔ a = (b : Int))) ∧
    (∀ c1 c2 t cs, (mod2.getConstant c2).inner = .Composite t cs →
      validate_constant_value_equivalent c1 mod1 c2 mod2 =
        .error (.CompositeTypeAsArrayLen (.Composite t cs))) ∧
    (∀ c1 c2 t cs w v, (mod1.getConstant c1).inner = .Composite t cs →
      (mod2.getConstant c2).inner = .Scalar w v →
      validate_constant_value_equivalent c1 mod1 c2 mod2 =
        .error (.CompositeTypeAsArrayLen (.Composite t cs))) := by
  refine ⟨rfl, fun c1 => rfl, fun c2 => rfl, fun c1 c2 => rfl, ?_, ?_, ?_, ?_, ?_, ?_⟩
  · intro c1 c2 w1 w2 a b h1 h2
    simp only [validate_constant_value_equivalent, h1, h2]
    by_cases hab : a = b
    · simp [hab]
    · simp [hab]
  · intro c1 c2 w1 w2 a b h1 h2
    simp only [validate_constant_value_equivalent, h1, h2]
    by_cases hab : a = b
    · simp [hab]
    · simp [hab]
  · intro c1 c2 w1 w2 a b h1 h2 hl hr hb
    simp only [validate_constant_value_equivalent, h1, h2]
    rw [← sint_as_u64_eq_iff a b hl hr hb]
    by_cases hab : sint_as_u64 a = b
    · simp [hab]
    · simp [hab]
  · intro c1 c2 w1 w2 a b h1 h2 hl hr hb
    simp only [validate_constant_value_equivalent, h1, h2]
    rw [← sint_as_u64_eq_iff a b hl hr hb]
    by_cases hab : sint_as_u64 a = b
    · simp [hab]
    · simp [hab]
  · intro c1 c2 t cs h2
    simp only [validate_constant_value_equivalent, h2]
  · intro c1 c2 t cs w v h1 h2
    simp only [validate_constant_value_equivalent, h1, h2]

/-- Witness for C5: the `i32` constant 16 and the `u32` constant 16 denote
the same value and are accepted as equal array lengths. -/
theorem array_size_equivalence_spec_witness :
    validate_constant_value_equivalent 0 constModSint 0 constModUint = .ok () :=
  ((array_size_equivalence_spec constModSint constModUint).2.2.2.2.2.2.1
    0 0 4 4 16 16 (by decide) (by decide) (by decide) (by decide) (by decide)).mpr
    (by decide)

/-- The name check opens `validate_type_equivalent`: differing names fail
with `TypeNameMismatch` before any structural comparison. -/
theorem validate_type_equivalent_names_aux (ty1 : Handle) (mod1 : NagaModule)
    (ty2 : Handle) (mod2 : NagaModule)
    (h : (mod1.getType ty1).name ≠ (mod2.getType ty2).name) :
    validate_type_equivalent ty1 mod1 ty2 mod2 =
      some (.error (.TypeNameMismatch (mod1.getType ty1).name
        (mod2.getType ty2).name)) := by
  unfold validate_type_equivalent validate_type_equivalent_fuel
  simp [h]

/-- A successful type-equivalence check entails equal type names. -/
theorem validate_type_equivalent_ok_names (ty1 : Handle) (mod1 : NagaModule)
    (ty2 : Handle) (mod2 : NagaModule)
    (h : validate_type_equivalent ty1 mod1 ty2 mod2 = some (.ok ())) :
    (mod1.getType ty1).name = (mod2.getType ty2).name := by
  by_contra hne
  rw [validate_type_equivalent_names_aux ty1 mod1 ty2 mod2 hne] at h
  exact Option.noConfusion h (fun h2 => Except.noConfusion h2)

/-- If the whole globals loop succeeds, every header global's individual
check succeeded. -/
theorem validate_globals_list_ok_forall (header shader : NagaModule) :
    ∀ gs, validate_globals_list header shader gs = some (.ok ()) →
      ∀ g ∈ gs, checkGlobal header shader g = some (.ok ()) := by
  intro gs
  induction gs with
  | nil => intro _ g hg; cases hg
  | cons g0 rest ih =>
    intro hok g hg
    unfold validate_globals_list at hok
    rcases hcg : checkGlobal header shader g0 with _ | v
    · rw [hcg] at hok; simp at hok
    · rcases v with e | u
      · rw [hcg] at hok; simp at hok
      · rw [hcg] at hok
        rcases List.mem_cons.mp hg with rfl | hmem
        · exact hcg
        · exact ih hok g hmem

/-- The globals loop surfaces the first failing global's error: with all
checks before `g` succeeding and `g`'s check failing with `e`, the loop
returns `e`. -/
theorem validate_globals_list_first_error (header shader : NagaModule)
    (g : GlobalVariable) (e : ShaderValidationError) :
    ∀ pre post, (∀ g0 ∈ pre, checkGlobal header shader g0 = some (.ok ())) →
      checkGlobal header shader g = some (.error e) →
      validate_globals_list header shader (pre ++ g :: post) =
        some (.error e) := by
  intro pre
  induction pre with
  | nil =>
    intro post _ hcg
    rw [List.nil_append]
    simp only [validate_globals_list]
    rw [hcg]
  | cons g0 rest ih =>
    intro post hpre hcg
    rw [List.cons_append]
    simp only [validate_globals_list]
    rw [hpre g0 (List.mem_cons_self g0 rest)]
    exact ih post (fun g1 h1 => hpre g1 (List.mem_cons_of_mem g0 h1)) hcg

/-- Claim C1. `validate_contains_header` succeeds only if every header
global has a shader global with the same address space and binding and a
structurally equivalent type; a header global with no such match makes the
result `GlobalNotFound`, and one whose (first) match exists but has an
inequivalent type makes the result `GlobalBadType`. -/
theorem validate_globals_spec (header shader : NagaModule) :
    (validate_contains_header header shader = some (.ok ()) →
      ∀ g ∈ header.global_variables, ∃ g2 ∈ shader.global_variables,
        g2.space = g.space ∧ g2.binding = g.binding ∧
        validate_type_equivalent g.ty header g2.ty shader = some (.ok ())) ∧
    (∀ pre g post, header.global_variables = pre ++ g :: post →
      (∀ g0 ∈ pre, checkGlobal header shader g0 = some (.ok ())) →
      (∀ g2 ∈ shader.global_variables,
        ¬ (g2.space = g.space ∧ g2.binding = g.binding)) →
      validate_globals header shader = some (.error (.GlobalNotFound g))) ∧
    (∀ pre g post g2 e, header.global_variables = pre ++ g :: post →
      (∀ g0 ∈ pre, checkGlobal header shader g0 = some (.ok ())) →
      shader.global_variables.find?
        (fun s_global => decide (s_global.space = g.space ∧
          s_global.binding = g.binding)) = some g2 →
      validate_type_equivalent g.ty header g2.ty shader = some (.error e) →
      validate_globals header shader = some (.error (.GlobalBadType e))) := by
  refine ⟨?_, ?_, ?_⟩
  · intro hok g hg
    have hglob : validate_globals header shader = some (.ok ()) := by
      unfold validate_contains_header at hok
      rcases hval : validate_globals header shader with _ | v
      · rw [hval] at hok; simp at hok
      · rcases v with e | u
        · rw [hval] at hok; simp at hok
        · rfl
    have hcg := validate_globals_list_ok_forall header shader
      header.global_variables hglob g hg
    unfold checkGlobal at hcg
    split at hcg
    · simp at hcg
    · rename_i g2 hfind
      split at hcg
      · simp at hcg
      · simp at hcg
      · rename_i u hveq
        have hp := List.find?_some hfind
        simp only [decide_eq_true_eq] at hp
        exact ⟨g2, List.mem_of_find?_eq_some hfind, hp.1, hp.2, hveq⟩
  · intro pre g post hsplit hpre hnomatch
    have hfind : shader.global_variables.find?
        (fun s_global => decide (s_global.space = g.space ∧
          s_global.binding = g.binding)) = none := by
      rw [List.find?_eq_none]
      intro g2 hg2
      simpa using hnomatch g2 hg2
    have hcg : checkGlobal header shader g =
        some (.error (.GlobalNotFound g)) := by
      unfold checkGlobal
      simp only [hfind]
    unfold validate_globals
    rw [hsplit]
    exact validate_globals_list_first_error header shader g _ pre post hpre hcg
  · intro pre g post g2 e hsplit hpre hfind hveq
    have hcg : checkGlobal header shader g =
        some (.error (.GlobalBadType e)) := by
      unfold checkGlobal
      simp only [hfind, hveq]
    unfold validate_globals
    rw [hsplit]
    exact validate_globals_list_first_error header shader g _ pre post hpre hcg

/-- Witness for C1: a header with one `(0,0)` uniform validated against
the empty module fails with `GlobalNotFound` on that global. -/
theorem validate_globals_spec_witness :
    validate_globals headerOneGlobal emptyModule =
      some (.error (.GlobalNotFound
        ⟨some "base_params", .Uniform, some ⟨0, 0⟩, 0, none⟩)) :=
  (validate_globals_spec headerOneGlobal emptyModule).2.1 []
    ⟨some "base_params", .Uniform, some ⟨0, 0⟩, 0, none⟩ [] rfl
    (by intro g0 h; cases h) (by intro g2 h; cases h)

/-- Counterexample to **C2** as stated: `headerTwoTypes` declares both
`VertexInput` and `Other`; `shaderOtherInput`'s `vs_main` argument has
type name `Other`, not the header's `VertexInput` name, yet
`validate_contains_header` succeeds — the source accepts a match with
*any* header type of the same name. -/
theorem vertex_input_name_counterexample :
    validate_contains_header headerTwoTypes shaderOtherInput = some (.ok ()) ∧
    (shaderOtherInput.getType
      ((shaderOtherInput.entry_points.getD 0 default).function.arguments.getD
        0 default).ty).name = some "Other" ∧
    ((headerTwoTypes.types.map NagaType.name).contains (some "VertexInput")) = true ∧
    some "Other" ≠ some "VertexInput" := by
  decide

/-- Claim C2 (amended): `validate_contains_header` succeeds only if the user
module has a vertex entry point named `vs_main` with exactly one argument
whose type name equals the name of *some* type declared in the header
(found by name search) and whose type is structurally equivalent to that
header type; a missing entry point yields `VertexShaderNotFound` and a
different argument count yields `VertexShaderBadArgumentAmount` with the
found count. -/
theorem validate_vertex_input_spec (header shader : NagaModule) :
    (validate_contains_header header shader = some (.ok ()) →
      ∃ vertex ∈ shader.entry_points, vertex.name = VERTEX_ENTRYPOINT_NAME ∧
        vertex.stage = .Vertex ∧ vertex.function.arguments.length = 1 ∧
        ∃ idx, header.types.findIdx? (fun ty => ty.name ==
            (shader.getType (vertex.function.arguments.getD 0 default).ty).name) =
              some idx ∧
          (header.getType idx).name =
            (shader.getType (vertex.function.arguments.getD 0 default).ty).name ∧
          validate_type_equivalent idx header
            (vertex.function.arguments.getD 0 default).ty shader =
              some (.ok ())) ∧
    (shader.entry_points.find?
        (fun entry_point => decide (entry_point.name = VERTEX_ENTRYPOINT_NAME ∧
          entry_point.stage = ShaderStage.Vertex)) = none →
      validate_vertex_input header shader = some (.error .VertexShaderNotFound)) ∧
    (∀ vertex, shader.entry_points.find?
        (fun entry_point => decide (entry_point.name = VERTEX_ENTRYPOINT_NAME ∧
          entry_point.stage = ShaderStage.Vertex)) = some vertex →
      vertex.function.arguments.length ≠ 1 →
      validate_vertex_input header shader =
        some (.error (.VertexShaderBadArgumentAmount
          vertex.function.arguments.length))) := by
  refine ⟨?_, ?_, ?_⟩
  · intro hok
    have hvi : validate_vertex_input header shader = some (.ok ()) := by
      unfold validate_contains_header at hok
      rcases hval : validate_globals header shader with _ | v
      · rw [hval] at hok; simp at hok
      · rcases v with e | u
        · rw [hval] at hok; simp at hok
        · rw [hval] at hok; exact hok
    unfold validate_vertex_input at hvi
    split at hvi
    · simp at hvi
    · rename_i vertex hfind
      split at hvi
      · simp at hvi
      · rename_i hlen
        push_neg at hlen
        split at hvi
        · simp at hvi
        · rename_i idx hidx
          split at hvi
          · simp at hvi
          · simp at hvi
          · rename_i u hveq
            have hp := List.find?_some hfind
            simp only [decide_eq_true_eq] at hp
            exact ⟨vertex, List.mem_of_find?_eq_some hfind, hp.1, hp.2, hlen,
              idx, hidx,
              validate_type_equivalent_ok_names idx header _ shader hveq, hveq⟩
  · intro hfind
    unfold validate_vertex_input
    simp only [hfind]
  · intro vertex hfind hlen
    unfold validate_vertex_input
    simp only [hfind]
    rw [if_pos hlen]

/-- Witness for C2: a user module with no entry points is rejected with
`VertexShaderNotFound`. -/
theorem validate_vertex_input_spec_witness :
    validate_vertex_input headerTwoTypes emptyModule =
      some (.error .VertexShaderNotFound) :=
  (validate_vertex_input_spec headerTwoTypes emptyModule).2.1 rfl
